import Mathlib

/-!
Verification of the CollegeStudentBandwidthModel repository
(CollegeStudentBandwidthModel.py — the unversioned baseline, here "v0" —
and the variants v8, v13, v18).

The numeric arrays and arithmetic in the source are numpy float64; every
literal in the source is an exact decimal, and this development models the
arithmetic with exact rationals `ℚ`.  The per-device bandwidth arrays are
character-identical in all four files and are transcribed once below.

The loops in `_generate_wifi_band_data` write only index `i` of each band
array during iteration `i`, so the per-slot computation is embedded as a
pure function of the slot index.
-/

set_option allowUnsafeReducibility true in
attribute [semireducible] Rat.add Rat.mul Rat.sub Rat.div Rat.inv Rat.ofScientific

set_option maxRecDepth 100000

namespace BWModel

/-! numpy primitives used by the source -/

/-- numpy `np.arange(start, stop, step)` for positive `step`:
`ceil((stop - start) / step)` points `start + i * step`. -/
def np_arange (start stop step : ℚ) : List ℚ :=
  (List.range (Int.ceil ((stop - start) / step)).toNat).map
    (fun i => start + (i : ℚ) * step)

/-- numpy `np.sum` over a 1-d array. -/
def npSum (l : List ℚ) : ℚ := l.foldl (· + ·) 0

/-- numpy `np.max` over a 1-d array (source never applies it to an empty one). -/
def npMax : List ℚ → ℚ
  | [] => 0
  | x :: xs => xs.foldl max x

/-- numpy `np.mean`: sum divided by length. -/
def npMean (l : List ℚ) : ℚ := npSum l / (l.length : ℚ)

/-- numpy `np.argmax`: index of the first occurrence of the maximum. -/
def npArgmax (l : List ℚ) : ℕ :=
  (l.foldl
    (fun (acc : ℕ × ℕ × ℚ) x =>
      if acc.2.2 < x then (acc.2.1, acc.2.1 + 1, x)
      else (acc.1, acc.2.1 + 1, acc.2.2))
    (0, 0, l.headD 0)).1

/-- numpy `np.clip(x, lo, hi)`, elementwise on one entry. -/
def npClip (lo hi x : ℚ) : ℚ := min (max x lo) hi

/-- `self.hours = np.arange(0, 24, 0.5)`, identical in every version. -/
def hours : List ℚ := np_arange 0 24 0.5

/-! Device bandwidth arrays from `_generate_bandwidth_data`
(identical in v0, v8, v13 and in v18's `base_patterns`). -/

def smartphoneData : List ℚ := [1, 1/2, 3/10, 1/5, 1/5, 3/10, 2, 3, 5, 4, 8, 12, 10, 8, 5, 3, 2, 3/2, 1, 3/2, 2, 5, 10, 8, 12, 15, 8, 4, 3, 2, 3, 5/2, 2, 3/2, 3, 4, 5, 8, 10, 12, 8, 6, 10, 12, 8, 10, 8, 6]

def laptopData : List ℚ := [20, 15, 1/2, 3/10, 3/10, 1/2, 1, 4/5, 1, 2, 3, 5, 8, 12, 15, 8, 5, 4, 6, 10, 8, 12, 10, 6, 12, 10, 8, 15, 18, 12, 8, 10, 12, 8, 5, 3, 15, 20, 25, 22, 18, 12, 8, 10, 15, 20, 22, 20]

def tabletData : List ℚ := [1, 2, 3/2, 1, 1/2, 1/2, 3/10, 1/5, 1/5, 3/10, 1, 2, 3, 2, 1, 1/2, 3/10, 2, 3, 5/2, 2, 3, 2, 3/2, 2, 3, 4, 3, 5/2, 2, 3/2, 1, 1/2, 3/10, 2, 4, 3, 5, 8, 10, 6, 4, 2, 3, 8, 12, 10, 8]

def smartwatchData : List ℚ := [1/100, 1/100, 1/100, 1/100, 1/100, 1/100, 1/100, 1/100, 1/50, 1/20, 2/25, 1/10, 3/20, 3/25, 1/2, 3/10, 1/10, 2/25, 1/10, 3/20, 1/10, 2/25, 3/50, 1/20, 2/25, 1/10, 2/25, 3/50, 1/20, 1/10, 1/4, 3/10, 1/5, 3/20, 1/10, 2/25, 1/10, 3/25, 3/20, 1/10, 2/25, 3/50, 1/20, 2/25, 1/10, 3/50, 1/25, 1/50]

/-- Shorthand for one slot of a device series. -/
def smartphoneAt (i : ℕ) : ℚ := smartphoneData.getD i 0

/-- Shorthand for one slot of the laptop series. -/
def laptopAt (i : ℕ) : ℚ := laptopData.getD i 0

/-- Shorthand for one slot of the tablet series. -/
def tabletAt (i : ℕ) : ℚ := tabletData.getD i 0

/-- Shorthand for one slot of the smartwatch series. -/
def smartwatchAt (i : ℕ) : ℚ := smartwatchData.getD i 0

/-- The `bandwidth_data` dict of v0/v8/v13, in source insertion order. -/
def bandwidthDict_v0 : List (String × List ℚ) :=
  [("smartphone", smartphoneData), ("laptop", laptopData),
   ("tablet", tabletData), ("smartwatch", smartwatchData)]

def bandwidthDict_v8 : List (String × List ℚ) :=
  [("smartphone", smartphoneData), ("laptop", laptopData),
   ("tablet", tabletData), ("smartwatch", smartwatchData)]

def bandwidthDict_v13 : List (String × List ℚ) :=
  [("smartphone", smartphoneData), ("laptop", laptopData),
   ("tablet", tabletData), ("smartwatch", smartwatchData)]

/-! WiFi band allocation, v8 and v13 (`_generate_wifi_band_data`; the two
files are character-identical here, so each gets its own transcription). -/

/-- The three band values of one time slot
(`band_data['2.4GHz'][i]`, `band_data['5GHz'][i]`, `band_data['6GHz'][i]`). -/
structure Bands where
  b24 : ℚ
  b5 : ℚ
  b6 : ℚ
deriving DecidableEq

/-- One iteration of v8's `_generate_wifi_band_data` loop body, statement by
statement; `hour = i / 2.0`. -/
def allocSlot_v8 (hour phone lap tab watch : ℚ) : Bands :=
  let b : Bands := ⟨0, 0, 0⟩
  let b := { b with b24 := b.b24 + watch }
  let b := if phone > 8 then { b with b6 := b.b6 + phone }
           else { b with b5 := b.b5 + phone }
  let b := if lap > 15 then { b with b6 := b.b6 + lap }
           else if lap > 5 then { b with b5 := b.b5 + lap }
           else { b with b24 := b.b24 + lap }
  let b := if tab > 3 then { b with b5 := b.b5 + tab }
           else { b with b24 := b.b24 + tab }
  let b := if 15 ≤ hour ∧ hour < 16 then
             (if phone ≤ 8 then { b with b5 := b.b5 - phone, b24 := b.b24 + phone }
              else b)
           else b
  b

/-- One iteration of v13's `_generate_wifi_band_data` loop body
(the v13 source is identical to v8's). -/
def allocSlot_v13 (hour phone lap tab watch : ℚ) : Bands :=
  let b : Bands := ⟨0, 0, 0⟩
  let b := { b with b24 := b.b24 + watch }
  let b := if phone > 8 then { b with b6 := b.b6 + phone }
           else { b with b5 := b.b5 + phone }
  let b := if lap > 15 then { b with b6 := b.b6 + lap }
           else if lap > 5 then { b with b5 := b.b5 + lap }
           else { b with b24 := b.b24 + lap }
  let b := if tab > 3 then { b with b5 := b.b5 + tab }
           else { b with b24 := b.b24 + tab }
  let b := if 15 ≤ hour ∧ hour < 16 then
             (if phone ≤ 8 then { b with b5 := b.b5 - phone, b24 := b.b24 + phone }
              else b)
           else b
  b

/-- Slot `i` of v8's `wifi_band_data`, as a function of the four series. -/
def generate_wifi_band_data_v8 (phone lap tab watch : List ℚ) (i : ℕ) : Bands :=
  allocSlot_v8 ((i : ℚ) / 2) (phone.getD i 0) (lap.getD i 0) (tab.getD i 0) (watch.getD i 0)

/-- Slot `i` of v13's `wifi_band_data`. -/
def generate_wifi_band_data_v13 (phone lap tab watch : List ℚ) (i : ℕ) : Bands :=
  allocSlot_v13 ((i : ℚ) / 2) (phone.getD i 0) (lap.getD i 0) (tab.getD i 0) (watch.getD i 0)

/-- v8's band table on the model's own data. -/
def wifi_v8 (i : ℕ) : Bands :=
  generate_wifi_band_data_v8 smartphoneData laptopData tabletData smartwatchData i

/-- v13's band table on the model's own data. -/
def wifi_v13 (i : ℕ) : Bands :=
  generate_wifi_band_data_v13 smartphoneData laptopData tabletData smartwatchData i

/-- A 48-slot all-zero series (`np.zeros(48)`). -/
def zeros48 : List ℚ := List.replicate 48 0

/-- v8's band table recomputed with the laptop series zeroed
(the other devices' contributions alone). -/
def wifi_v8_noLaptop (i : ℕ) : Bands :=
  generate_wifi_band_data_v8 smartphoneData zeros48 tabletData smartwatchData i

/-- v13's band table with the laptop series zeroed. -/
def wifi_v13_noLaptop (i : ℕ) : Bands :=
  generate_wifi_band_data_v13 smartphoneData zeros48 tabletData smartwatchData i

/-- v8's band table with the smartphone series zeroed. -/
def wifi_v8_noPhone (i : ℕ) : Bands :=
  generate_wifi_band_data_v8 zeros48 laptopData tabletData smartwatchData i

/-- v13's band table with the smartphone series zeroed. -/
def wifi_v13_noPhone (i : ℕ) : Bands :=
  generate_wifi_band_data_v13 zeros48 laptopData tabletData smartwatchData i

/-! v18: DataFrame-based configuration layer.  Only the columns of
`device_config` that the computations read are modelled; `display_name`,
`color`, `line_style` and `power_mode` are presentation-only strings. -/

/-- One row of v18's `device_config` DataFrame (semantic columns). -/
structure DeviceCfg where
  device : String
  wifi_capability : String
  max_bandwidth_mbps : ℚ
  typical_usage_mbps : ℚ
  preferred_band : String
  device_count : ℚ
  enabled : Bool
deriving DecidableEq

/-- v18's default `device_config` rows, in DataFrame order. -/
def device_config_default : List DeviceCfg :=
  [⟨"laptop", "WiFi 6E", 100, 15, "6GHz", 1, true⟩,
   ⟨"smartphone", "WiFi 6E", 50, 8, "5GHz", 1, true⟩,
   ⟨"tablet", "WiFi 6", 40, 5, "5GHz", 1, true⟩,
   ⟨"smartwatch", "WiFi 4", 5, 1/5, "2.4GHz", 1, true⟩]

/-- v18's `base_patterns` dict (the same four arrays). -/
def base_patterns : List (String × List ℚ) :=
  [("smartphone", smartphoneData), ("laptop", laptopData),
   ("tablet", tabletData), ("smartwatch", smartwatchData)]

/-- Python dict assignment `d[k] = v`: update in place if the key exists,
otherwise append at the end. -/
def dictSet (d : List (String × List ℚ)) (k : String) (v : List ℚ) :
    List (String × List ℚ) :=
  if d.any (fun p => p.1 = k) then
    d.map (fun p => if p.1 = k then (k, v) else p)
  else d ++ [(k, v)]

/-- The loop of v18's `_generate_bandwidth_data`.  The accumulator mirrors the
Python locals: the partial `data` dict and the current value of the local
variable `device_name`, which Python only assigns inside the
`if device['enabled']` branch and which therefore still holds the previous
iteration's name when the `else` branch runs.  `none` models the
`UnboundLocalError` raised when the `else` branch runs before `device_name`
was ever assigned. -/
def generate_bandwidth_data_v18_go :
    List DeviceCfg → List (String × List ℚ) → Option String →
    Option (List (String × List ℚ))
  | [], data, _ => some data
  | dev :: rest, data, device_name =>
    if dev.enabled then
      let name := dev.device
      let base := (base_patterns.lookup name).getD
        (List.replicate 48 dev.typical_usage_mbps)
      let scaled := base.map (fun x => x * dev.device_count)
      let clipped := scaled.map (npClip 0 dev.max_bandwidth_mbps)
      generate_bandwidth_data_v18_go rest (dictSet data name clipped) (some name)
    else
      match device_name with
      | some n => generate_bandwidth_data_v18_go rest (dictSet data n zeros48) device_name
      | none => none

/-- v18's `_generate_bandwidth_data` as a function of the configuration. -/
def generate_bandwidth_data_v18 (cfg : List DeviceCfg) :
    Option (List (String × List ℚ)) :=
  generate_bandwidth_data_v18_go cfg [] none

/-- v18's `bandwidth_data` under the default configuration. -/
def bandwidthDict_v18 : List (String × List ℚ) :=
  (generate_bandwidth_data_v18 device_config_default).getD []

/-- One device's allocation step in v18's `_generate_wifi_band_data`. -/
def allocDevice_v18 (dev : DeviceCfg) (bw : ℚ) (b : Bands) : Bands :=
  if dev.preferred_band = "6GHz" ∧ dev.wifi_capability = "WiFi 6E" then
    if bw > 15 then { b with b6 := b.b6 + bw }
    else if bw > 5 then { b with b5 := b.b5 + bw }
    else { b with b24 := b.b24 + bw }
  else if dev.preferred_band = "5GHz" ∨ dev.preferred_band = "6GHz" then
    if bw > 3 then { b with b5 := b.b5 + bw }
    else { b with b24 := b.b24 + bw }
  else
    { b with b24 := b.b24 + bw }

/-- Slot `i` of v18's `_generate_wifi_band_data`: fold over the config rows,
skipping disabled devices.  `bandwidth_data[device_name]` is looked up with an
all-zero default; at every call site below the key is present (the source
would raise `KeyError` otherwise). -/
def wifi_slot_v18 (cfg : List DeviceCfg) (data : List (String × List ℚ))
    (i : ℕ) : Bands :=
  cfg.foldl
    (fun b dev =>
      if dev.enabled then
        allocDevice_v18 dev (((data.lookup dev.device).getD zeros48).getD i 0) b
      else b)
    ⟨0, 0, 0⟩

/-- v18's band table under the default configuration. -/
def wifi_v18 (i : ℕ) : Bands :=
  wifi_slot_v18 device_config_default bandwidthDict_v18 i

/-- v18's `bandwidth_data` with the laptop series zeroed. -/
def bandwidthDict_v18_noLaptop : List (String × List ℚ) :=
  dictSet bandwidthDict_v18 "laptop" zeros48

/-- v18's band table with the laptop series zeroed. -/
def wifi_v18_noLaptop (i : ℕ) : Bands :=
  wifi_slot_v18 device_config_default bandwidthDict_v18_noLaptop i

/-- v18's `_generate_wifi_band_data` in its dict shape: the three keys of the
`band_data` dict literal, each a 48-element array (`np.zeros(48)` written at
indices `0..47` by the loop). -/
def generate_wifi_band_data_v18 (cfg : List DeviceCfg)
    (data : List (String × List ℚ)) : List (String × List ℚ) :=
  [("2.4GHz", (List.range 48).map (fun i => (wifi_slot_v18 cfg data i).b24)),
   ("5GHz", (List.range 48).map (fun i => (wifi_slot_v18 cfg data i).b5)),
   ("6GHz", (List.range 48).map (fun i => (wifi_slot_v18 cfg data i).b6))]

/-- v8's `wifi_band_data` in its dict shape (same keys and lengths). -/
def wifi_band_dict_v8 : List (String × List ℚ) :=
  [("2.4GHz", (List.range 48).map (fun i => (wifi_v8 i).b24)),
   ("5GHz", (List.range 48).map (fun i => (wifi_v8 i).b5)),
   ("6GHz", (List.range 48).map (fun i => (wifi_v8 i).b6))]

/-- v13's `wifi_band_data` in its dict shape. -/
def wifi_band_dict_v13 : List (String × List ℚ) :=
  [("2.4GHz", (List.range 48).map (fun i => (wifi_v13 i).b24)),
   ("5GHz", (List.range 48).map (fun i => (wifi_v13 i).b5)),
   ("6GHz", (List.range 48).map (fun i => (wifi_v13 i).b6))]

/-- v18's `wifi_band_data` under the default configuration. -/
def wifi_band_dict_v18 : List (String × List ℚ) :=
  generate_wifi_band_data_v18 device_config_default bandwidthDict_v18

/-! `get_total_bandwidth` and `get_statistics` (the same code in every
version; v0 has no `wifi_band_usage` entry). -/

/-- `get_total_bandwidth`: `np.zeros_like(self.hours)` then `+=` each device
array, i.e. the elementwise sum over the dict values. -/
def get_total_bandwidth (bd : List (String × List ℚ)) : List ℚ :=
  (List.range hours.length).map
    (fun i => bd.foldl (fun acc p => acc + p.2.getD i 0) 0)

/-- The per-entry record built inside `get_statistics` for each device
(and, in v8/v13/v18, for each band). -/
structure EntryStats where
  average_mbps : ℚ
  peak_mbps : ℚ
  percentage_of_total : ℚ
deriving DecidableEq

/-- The `stats` dict returned by `get_statistics`.  In v0 the
`wifi_band_usage` key is absent; its field is left `[]` there and never
referenced. -/
structure Stats where
  peak_bandwidth : ℚ
  peak_time : ℚ
  average_bandwidth : ℚ
  total_daily_data_gb : ℚ
  device_contributions : List (String × EntryStats)
  wifi_band_usage : List (String × EntryStats)
deriving DecidableEq

/-- `get_statistics`, transcribed formula by formula. -/
def get_statistics (bd wbd : List (String × List ℚ)) : Stats :=
  let total := get_total_bandwidth bd
  { peak_bandwidth := npMax total
    peak_time := hours.getD (npArgmax total) 0
    average_bandwidth := npMean total
    total_daily_data_gb := npSum total * 0.5 * 3600 / (8 * 1024)
    device_contributions := bd.map
      (fun p => (p.1, ⟨npMean p.2, npMax p.2, npSum p.2 / npSum total * 100⟩))
    wifi_band_usage := wbd.map
      (fun p => (p.1, ⟨npMean p.2, npMax p.2, npSum p.2 / npSum total * 100⟩)) }

/-- v0's statistics (no `wifi_band_usage` key in the source). -/
def stats_v0 : Stats := get_statistics bandwidthDict_v0 []

def stats_v8 : Stats := get_statistics bandwidthDict_v8 wifi_band_dict_v8

def stats_v13 : Stats := get_statistics bandwidthDict_v13 wifi_band_dict_v13

def stats_v18 : Stats := get_statistics bandwidthDict_v18 wifi_band_dict_v18

/-! v18 model state and `import_device_config` (claims C7, C10). -/

/-- The numeric core of v18's `_create_timeseries_dataframe`: the device
columns (via `bandwidth_data.get(device, np.zeros(48))`), the band columns,
and the two row-sum columns.  The `time`, `period` and `activity` string
columns are presentation-only and not modelled. -/
structure Timeseries where
  device_cols : List (String × List ℚ)
  band_cols : List (String × List ℚ)
  total_mbps : List ℚ
  total_band_mbps : List ℚ
deriving DecidableEq

/-- v18's `_create_timeseries_dataframe` on the model's data. -/
def create_timeseries_dataframe (bd wbd : List (String × List ℚ)) : Timeseries :=
  let devCols := ["laptop", "smartphone", "tablet", "smartwatch"].map
    (fun d => (d, (bd.lookup d).getD zeros48))
  let bandCols := ["2.4GHz", "5GHz", "6GHz"].map
    (fun b => (b, (wbd.lookup b).getD zeros48))
  { device_cols := devCols
    band_cols := bandCols
    total_mbps := (List.range hours.length).map
      (fun i => devCols.foldl (fun acc p => acc + p.2.getD i 0) 0)
    total_band_mbps := (List.range hours.length).map
      (fun i => bandCols.foldl (fun acc p => acc + p.2.getD i 0) 0) }

/-- The v18 model state touched by `import_device_config`. -/
structure ModelV18 where
  device_config : List DeviceCfg
  bandwidth_data : List (String × List ℚ)
  wifi_band_data : List (String × List ℚ)
  timeseries_df : Timeseries
deriving DecidableEq

/-- The Python exceptions reachable in the modelled code. -/
inductive PyError where
  | fileNotFound
  | unboundLocal
deriving DecidableEq

/-- v18's `import_device_config`, statement by statement.  `fs` models the
filesystem: `fs filename` is the parsed CSV when the file exists.
`pd.read_csv` raises `FileNotFoundError` before any attribute is assigned;
each later statement replaces one attribute in turn, and an exception leaves
the attributes assigned so far in place. -/
def import_device_config_v18 (fs : String → Option (List DeviceCfg))
    (filename : String) (m : ModelV18) : Option PyError × ModelV18 :=
  match fs filename with
  | none => (some PyError.fileNotFound, m)
  | some cfg =>
    let m := { m with device_config := cfg }
    match generate_bandwidth_data_v18 cfg with
    | none => (some PyError.unboundLocal, m)
    | some bd =>
      let m := { m with bandwidth_data := bd }
      let m := { m with wifi_band_data := generate_wifi_band_data_v18 cfg bd }
      let m := { m with timeseries_df :=
        create_timeseries_dataframe bd (generate_wifi_band_data_v18 cfg bd) }
      (none, m)

/-- The default configuration with exactly the smartphone row disabled
(row index 1, as toggled by `enable_disable_device_menu`). -/
def device_config_phone_disabled : List DeviceCfg :=
  [⟨"laptop", "WiFi 6E", 100, 15, "6GHz", 1, true⟩,
   ⟨"smartphone", "WiFi 6E", 50, 8, "5GHz", 1, false⟩,
   ⟨"tablet", "WiFi 6", 40, 5, "5GHz", 1, true⟩,
   ⟨"smartwatch", "WiFi 4", 5, 1/5, "2.4GHz", 1, true⟩]

/-- The default configuration with exactly the laptop row (row 0) disabled. -/
def device_config_laptop_disabled : List DeviceCfg :=
  [⟨"laptop", "WiFi 6E", 100, 15, "6GHz", 1, false⟩,
   ⟨"smartphone", "WiFi 6E", 50, 8, "5GHz", 1, true⟩,
   ⟨"tablet", "WiFi 6", 40, 5, "5GHz", 1, true⟩,
   ⟨"smartwatch", "WiFi 4", 5, 1/5, "2.4GHz", 1, true⟩]

/-- The v18 model state right after `__init__` with the default config. -/
def modelV18_default : ModelV18 :=
  { device_config := device_config_default
    bandwidth_data := bandwidthDict_v18
    wifi_band_data := wifi_band_dict_v18
    timeseries_df := create_timeseries_dataframe bandwidthDict_v18 wifi_band_dict_v18 }

/-! Spec-side formulations used to state the claims. -/

/-- The spec's total-bandwidth sequence: the pointwise sum of the four device
series over the 48 slots. -/
def totalsSpec : List ℚ :=
  List.ofFn (fun i : Fin 48 =>
    laptopAt i.val + smartphoneAt i.val + tabletAt i.val + smartwatchAt i.val)

/-- Claim C1 at slot `i`: in v8, v13 and v18 (default configuration) the three
band values sum to the four device bandwidths, which is
`get_total_bandwidth()[i]`. -/
abbrev ConservesAt (i : ℕ) : Prop :=
  (wifi_v8 i).b24 + (wifi_v8 i).b5 + (wifi_v8 i).b6
      = laptopAt i + smartphoneAt i + tabletAt i + smartwatchAt i ∧
  (wifi_v13 i).b24 + (wifi_v13 i).b5 + (wifi_v13 i).b6
      = laptopAt i + smartphoneAt i + tabletAt i + smartwatchAt i ∧
  (wifi_v18 i).b24 + (wifi_v18 i).b5 + (wifi_v18 i).b6
      = laptopAt i + smartphoneAt i + tabletAt i + smartwatchAt i ∧
  (get_total_bandwidth bandwidthDict_v8).getD i 0
      = laptopAt i + smartphoneAt i + tabletAt i + smartwatchAt i ∧
  (get_total_bandwidth bandwidthDict_v13).getD i 0
      = laptopAt i + smartphoneAt i + tabletAt i + smartwatchAt i ∧
  (get_total_bandwidth bandwidthDict_v18).getD i 0
      = laptopAt i + smartphoneAt i + tabletAt i + smartwatchAt i

/-- Claim C2 at slot `i`: the laptop's entire bandwidth lands on 6GHz when
`> 15`, on 5GHz when `> 5` and `≤ 15`, and on 2.4GHz when `≤ 5` — stated as
the difference against the table recomputed with the laptop series zeroed. -/
abbrev LaptopRuleAt (i : ℕ) : Prop :=
  ((wifi_v8 i).b6 = (wifi_v8_noLaptop i).b6 +
      (if laptopAt i > 15 then laptopAt i else 0) ∧
   (wifi_v8 i).b5 = (wifi_v8_noLaptop i).b5 +
      (if 5 < laptopAt i ∧ laptopAt i ≤ 15 then laptopAt i else 0) ∧
   (wifi_v8 i).b24 = (wifi_v8_noLaptop i).b24 +
      (if laptopAt i ≤ 5 then laptopAt i else 0)) ∧
  ((wifi_v13 i).b6 = (wifi_v13_noLaptop i).b6 +
      (if laptopAt i > 15 then laptopAt i else 0) ∧
   (wifi_v13 i).b5 = (wifi_v13_noLaptop i).b5 +
      (if 5 < laptopAt i ∧ laptopAt i ≤ 15 then laptopAt i else 0) ∧
   (wifi_v13 i).b24 = (wifi_v13_noLaptop i).b24 +
      (if laptopAt i ≤ 5 then laptopAt i else 0)) ∧
  ((wifi_v18 i).b6 = (wifi_v18_noLaptop i).b6 +
      (if laptopAt i > 15 then laptopAt i else 0) ∧
   (wifi_v18 i).b5 = (wifi_v18_noLaptop i).b5 +
      (if 5 < laptopAt i ∧ laptopAt i ≤ 15 then laptopAt i else 0) ∧
   (wifi_v18 i).b24 = (wifi_v18_noLaptop i).b24 +
      (if laptopAt i ≤ 5 then laptopAt i else 0))

/-- Claim C3 at slot `i`, as stated: in v8 and v13 the smartphone's bandwidth
lands on 6GHz when `> 8` and on 5GHz otherwise. -/
abbrev PhoneRuleAt (i : ℕ) : Prop :=
  ((wifi_v8 i).b6 = (wifi_v8_noPhone i).b6 +
      (if smartphoneAt i > 8 then smartphoneAt i else 0) ∧
   (wifi_v8 i).b5 = (wifi_v8_noPhone i).b5 +
      (if smartphoneAt i > 8 then 0 else smartphoneAt i)) ∧
  ((wifi_v13 i).b6 = (wifi_v13_noPhone i).b6 +
      (if smartphoneAt i > 8 then smartphoneAt i else 0) ∧
   (wifi_v13 i).b5 = (wifi_v13_noPhone i).b5 +
      (if smartphoneAt i > 8 then 0 else smartphoneAt i))

/-- The gym-hour condition of the source: slot hour in `[15, 16)` and the
smartphone at `≤ 8` Mbps. -/
abbrev GymMoveAt (i : ℕ) : Prop :=
  15 ≤ (i : ℚ) / 2 ∧ (i : ℚ) / 2 < 16 ∧ smartphoneAt i ≤ 8

/-- Claim C3 as amended at slot `i`: the 6GHz part is as claimed, and the
5GHz part holds except during the gym hour, where a `≤ 8` Mbps smartphone is
moved to 2.4GHz instead. -/
abbrev PhoneRuleAmendedAt (i : ℕ) : Prop :=
  ((wifi_v8 i).b6 = (wifi_v8_noPhone i).b6 +
      (if smartphoneAt i > 8 then smartphoneAt i else 0) ∧
   (wifi_v13 i).b6 = (wifi_v13_noPhone i).b6 +
      (if smartphoneAt i > 8 then smartphoneAt i else 0)) ∧
  (GymMoveAt i →
    ((wifi_v8 i).b24 = (wifi_v8_noPhone i).b24 + smartphoneAt i ∧
     (wifi_v8 i).b5 = (wifi_v8_noPhone i).b5 ∧
     (wifi_v13 i).b24 = (wifi_v13_noPhone i).b24 + smartphoneAt i ∧
     (wifi_v13 i).b5 = (wifi_v13_noPhone i).b5)) ∧
  (¬ GymMoveAt i →
    ((wifi_v8 i).b5 = (wifi_v8_noPhone i).b5 +
        (if smartphoneAt i > 8 then 0 else smartphoneAt i) ∧
     (wifi_v13 i).b5 = (wifi_v13_noPhone i).b5 +
        (if smartphoneAt i > 8 then 0 else smartphoneAt i)))

/-- Claim C8 at slot `i`: every band value of v8 and v13 is nonnegative. -/
abbrev NonnegAt (i : ℕ) : Prop :=
  0 ≤ (wifi_v8 i).b24 ∧ 0 ≤ (wifi_v8 i).b5 ∧ 0 ≤ (wifi_v8 i).b6 ∧
  0 ≤ (wifi_v13 i).b24 ∧ 0 ≤ (wifi_v13 i).b5 ∧ 0 ≤ (wifi_v13 i).b6

/-! Theorems settling the claims. -/

/-- Claim C1: band allocation conserves total bandwidth — in v8, v13 and v18
(default configuration), for every slot `i < 48` the three band values sum to
the four device bandwidths, which equals `get_total_bandwidth()[i]`. -/
theorem wifi_band_allocation_conserves_total : ∀ i, i < 48 → ConservesAt i := by
  decide

theorem wifi_band_allocation_conserves_total_witness : 30 < 48 ∧ ConservesAt 30 :=
  ⟨by decide, wifi_band_allocation_conserves_total 30 (by decide)⟩

/-- Claim C2: the laptop threshold rule — in v8, v13 and v18 (default
configuration), at every slot the laptop's entire bandwidth is added to 6GHz
when it exceeds 15 Mbps, to 5GHz when it is in (5, 15], and to 2.4GHz when it
is at most 5 Mbps, leaving the other bands' contributions unchanged. -/
theorem laptop_threshold_rule : ∀ i, i < 48 → LaptopRuleAt i := by
  decide

theorem laptop_threshold_rule_witness : 0 < 48 ∧ LaptopRuleAt 0 :=
  ⟨by decide, laptop_threshold_rule 0 (by decide)⟩

/-- Claim C3 fails as stated: at slot 30 (hour 15.0) the smartphone's 3 Mbps
does not end up on 5GHz — the gym-hour block moves it to 2.4GHz. -/
theorem phone_rule_gym_counterexample :
    smartphoneAt 30 = 3 ∧ (wifi_v8 30).b5 = 8 ∧ (wifi_v8_noPhone 30).b5 = 8 ∧
    ¬ PhoneRuleAt 30 := by
  decide

/-- Claim C3 as amended: in v8 and v13 the smartphone's bandwidth is added to
6GHz when it exceeds 8 Mbps and to 5GHz otherwise, except during the gym hour
(slots with hour in [15, 16)) where a smartphone at `≤ 8` Mbps is moved to
2.4GHz instead. -/
theorem phone_threshold_rule_amended : ∀ i, i < 48 → PhoneRuleAmendedAt i := by
  decide

theorem phone_threshold_rule_amended_witness : 30 < 48 ∧ PhoneRuleAmendedAt 30 :=
  ⟨by decide, phone_threshold_rule_amended 30 (by decide)⟩

/-- Claim C4 fails as stated: at slot 11 the 6GHz band carries 12 Mbps in v8
and v13 but 0 in v18 (default configuration), so the three versions do not
produce identical band tables. -/
theorem band_table_version_equivalence_counterexample :
    (wifi_v8 11).b6 = 12 ∧ (wifi_v13 11).b6 = 12 ∧ (wifi_v18 11).b6 = 0 ∧
    wifi_v18 11 ≠ wifi_v8 11 := by
  decide

/-- Claim C4 as amended: v8 and v13 produce identical band tables on every
slot, but v18's table differs from theirs (already at slot 11). -/
theorem band_table_v8_v13_equal_v18_differs :
    (∀ i, i < 48 → wifi_v8 i = wifi_v13 i) ∧ wifi_v18 11 ≠ wifi_v8 11 := by
  decide

theorem band_table_v8_v13_equal_v18_differs_witness :
    11 < 48 ∧ wifi_v8 11 = wifi_v13 11 :=
  ⟨by decide, band_table_v8_v13_equal_v18_differs.1 11 (by decide)⟩

/-- Claim C5: in every version `get_statistics` returns `peak_bandwidth` equal
to the maximum of the 48 pointwise total-bandwidth values, `average_bandwidth`
equal to their sum divided by 48, and `total_daily_data_gb` equal to their sum
times `0.5 * 3600` divided by `8 * 1024`. -/
theorem statistics_are_stated_aggregates :
    (totalsSpec.max? = some stats_v0.peak_bandwidth ∧
     stats_v0.average_bandwidth = totalsSpec.sum / 48 ∧
     stats_v0.total_daily_data_gb = totalsSpec.sum * (0.5 * 3600) / (8 * 1024)) ∧
    (totalsSpec.max? = some stats_v8.peak_bandwidth ∧
     stats_v8.average_bandwidth = totalsSpec.sum / 48 ∧
     stats_v8.total_daily_data_gb = totalsSpec.sum * (0.5 * 3600) / (8 * 1024)) ∧
    (totalsSpec.max? = some stats_v13.peak_bandwidth ∧
     stats_v13.average_bandwidth = totalsSpec.sum / 48 ∧
     stats_v13.total_daily_data_gb = totalsSpec.sum * (0.5 * 3600) / (8 * 1024)) ∧
    (totalsSpec.max? = some stats_v18.peak_bandwidth ∧
     stats_v18.average_bandwidth = totalsSpec.sum / 48 ∧
     stats_v18.total_daily_data_gb = totalsSpec.sum * (0.5 * 3600) / (8 * 1024)) := by
  decide

/-- Claim C6: the time axis is exactly the 48 points 0.0, 0.5, …, 23.5; in
every version `bandwidth_data` has exactly the four device keys, each mapped
to a 48-element series; and where present `wifi_band_data` has exactly the
three band keys, each mapped to a 48-element series. -/
theorem fixed_shapes_48_slots_4_devices_3_bands :
    (hours = List.ofFn (fun i : Fin 48 => (i.val : ℚ) / 2) ∧ hours.length = 48) ∧
    ((bandwidthDict_v0.map Prod.fst).Perm
        ["laptop", "smartphone", "tablet", "smartwatch"] ∧
     bandwidthDict_v0.map (fun p => p.2.length) = [48, 48, 48, 48]) ∧
    ((bandwidthDict_v8.map Prod.fst).Perm
        ["laptop", "smartphone", "tablet", "smartwatch"] ∧
     bandwidthDict_v8.map (fun p => p.2.length) = [48, 48, 48, 48]) ∧
    ((bandwidthDict_v13.map Prod.fst).Perm
        ["laptop", "smartphone", "tablet", "smartwatch"] ∧
     bandwidthDict_v13.map (fun p => p.2.length) = [48, 48, 48, 48]) ∧
    ((bandwidthDict_v18.map Prod.fst).Perm
        ["laptop", "smartphone", "tablet", "smartwatch"] ∧
     bandwidthDict_v18.map (fun p => p.2.length) = [48, 48, 48, 48]) ∧
    ((wifi_band_dict_v8.map Prod.fst).Perm ["2.4GHz", "5GHz", "6GHz"] ∧
     wifi_band_dict_v8.map (fun p => p.2.length) = [48, 48, 48]) ∧
    ((wifi_band_dict_v13.map Prod.fst).Perm ["2.4GHz", "5GHz", "6GHz"] ∧
     wifi_band_dict_v13.map (fun p => p.2.length) = [48, 48, 48]) ∧
    ((wifi_band_dict_v18.map Prod.fst).Perm ["2.4GHz", "5GHz", "6GHz"] ∧
     wifi_band_dict_v18.map (fun p => p.2.length) = [48, 48, 48]) := by
  decide

/-- Claim C7: in v18, `import_device_config` on a filename that does not
exist raises the file-not-found error before any attribute assignment, so the
whole model state — `device_config`, `bandwidth_data`, `wifi_band_data`,
`timeseries_df` — is returned unchanged. -/
theorem import_missing_file_atomic :
    ∀ (fs : String → Option (List DeviceCfg)) (filename : String) (m : ModelV18),
    fs filename = none →
    import_device_config_v18 fs filename m = (some PyError.fileNotFound, m) := by
  intro fs filename m h
  simp only [import_device_config_v18, h]

theorem import_missing_file_atomic_witness :
    import_device_config_v18 (fun _ => none) "device_config.csv" modelV18_default
      = (some PyError.fileNotFound, modelV18_default) :=
  import_missing_file_atomic (fun _ => none) "device_config.csv" modelV18_default rfl

/-- Claim C8: in v8 and v13 every entry of every band series is nonnegative;
in particular the gym-hour adjustment never drives the 5GHz value below 0. -/
theorem band_values_nonneg : ∀ i, i < 48 → NonnegAt i := by
  decide

theorem band_values_nonneg_witness : 31 < 48 ∧ NonnegAt 31 :=
  ⟨by decide, band_values_nonneg 31 (by decide)⟩

/-- Claim C9: in every version the four `percentage_of_total` values of
`get_statistics()['device_contributions']` sum to exactly 100 in exact
rational arithmetic. -/
theorem device_percentages_sum_to_100 :
    (stats_v0.device_contributions.map
        (fun p => p.2.percentage_of_total)).sum = 100 ∧
    (stats_v8.device_contributions.map
        (fun p => p.2.percentage_of_total)).sum = 100 ∧
    (stats_v13.device_contributions.map
        (fun p => p.2.percentage_of_total)).sum = 100 ∧
    (stats_v18.device_contributions.map
        (fun p => p.2.percentage_of_total)).sum = 100 := by
  decide

/-- Claim C10 names a real bug: disabling only the smartphone (row 1) of the
default v18 configuration makes `_generate_bandwidth_data` zero the previous
row's series — the laptop's — and leave no smartphone key at all, because the
`else` branch reads the stale loop-local `device_name`; disabling the laptop
(row 0) instead hits the unbound local and raises. -/
theorem disable_device_bug_eval :
    generate_bandwidth_data_v18 device_config_phone_disabled
      = some [("laptop", zeros48), ("tablet", tabletData),
              ("smartwatch", smartwatchData)] ∧
    ((generate_bandwidth_data_v18 device_config_phone_disabled).getD
        []).lookup "smartphone" = none ∧
    generate_bandwidth_data_v18 device_config_laptop_disabled = none := by
  decide

end BWModel
